import Mathlib

/-!
Verification development for the docker_opensearch_syn pipeline.

The JavaScript sources are shallowly embedded as pure Lean functions.
External collaborators (the object store, the search index, the relational
source) are modelled as explicit environment records supplying the outcome
of each I/O call; a JavaScript exception from a collaborator call is
modelled as the error branch of an Except value, and a caught exception
follows the same control flow as the corresponding try/catch in the source.
JavaScript numbers standing for sizes and counts are modelled as Nat, and
signed arithmetic (the reconciler delta) as Int.
-/

/-! ## Constants (02_sync.js lines 13-15, 06_orchestrate.js line 91) -/

def INITIAL_BATCH_SIZE : Nat := 25

def MAX_PAYLOAD_MB : Nat := 2

/-- The payload ceiling in bytes.  The source compares
payloadSize / (1024*1024) <= 2 in double precision; division by the power
of two 2^20 is exact for the integer byte counts involved, so the
comparison is equivalent to payloadSize <= 2*1024*1024 bytes. -/
def MAX_PAYLOAD_BYTES : Nat := MAX_PAYLOAD_MB * 1024 * 1024

/-! ## Records and bulk payload size (02_sync.js lines 66-86)

A staged record is abstracted by its identifier and by the byte lengths of
its two serialized components in the bulk body: the index-action object
and the record document.  JSON.stringify of the flat array of 2*k
elements produced by flatMap yields 2 bracket bytes, the element bytes,
and 2*k-1 comma bytes, which is the payloadSize function below. -/

structure Rec where
  id : Nat
  actionBytes : Nat
  docBytes : Nat
deriving DecidableEq, Repr

/-- Byte length of JSON.stringify of the bulk body built from the first
testSize records (02_sync.js lines 72-78). -/
def payloadSize (records : List Rec) (testSize : Nat) : Nat :=
  match records.take testSize with
  | [] => 2
  | pre => 1 + (pre.map (fun r => r.actionBytes + r.docBytes + 2)).sum

/-- The probing loop of 02_sync.js lines 71-86: testSize runs from 1 while
it does not exceed maxTestSize, finalBatchSize is set to every candidate
whose payload is at or under the ceiling, and the loop breaks at the first
candidate over the ceiling.  fuel counts the remaining loop iterations
(maxTestSize - testSize + 1), making the recursion structural. -/
def probeLoop (records : List Rec) (fuel testSize finalBatchSize : Nat) : Nat :=
  match fuel with
  | 0 => finalBatchSize
  | fuel + 1 =>
    if payloadSize records testSize ≤ MAX_PAYLOAD_BYTES then
      probeLoop records fuel (testSize + 1) testSize
    else
      finalBatchSize

/-- The selected batch size for a blob (02_sync.js lines 67-86):
finalBatchSize starts at 1 and the probe runs testSize = 1 .. maxTestSize
with maxTestSize = min(INITIAL_BATCH_SIZE, records.length). -/
def finalBatchSize (records : List Rec) : Nat :=
  probeLoop records (min INITIAL_BATCH_SIZE records.length) 1 1

/-! ## Bulk responses and the indexing loop (02_sync.js lines 90-141) -/

/-- Outcome of one osClient.bulk call: a response with errors=false, a
response with errors=true carrying the per-item actions (an item whose
status field is present is modelled as some status, an item without a
recognized action as none), or a thrown request-level error. -/
inductive BulkResp where
  | ok
  | errs (items : List (Option Nat))
  | throwErr
deriving DecidableEq, Repr

/-- Count of individually-successful items: actions present with status in
200..299 (02_sync.js lines 106-109). -/
def countSuccessItems (items : List (Option Nat)) : Nat :=
  (items.filter (fun it =>
    match it with
    | some s => decide (200 ≤ s) && decide (s < 300)
    | none => false)).length

/-- The number of records counted for one window (the try/catch block of
02_sync.js lines 100-138): a first response with errors=false counts the
whole batch, one with errors=true counts its individually-successful
items, and a throw leads to exactly one retry (attempt 1) whose response
is counted the same way, a second throw counting zero. -/
def windowContribution (env : Nat → Nat → BulkResp) (batch : List Rec) (i : Nat) : Nat :=
  match env i 0 with
  | BulkResp.ok => batch.length
  | BulkResp.errs items => countSuccessItems items
  | BulkResp.throwErr =>
    match env i 1 with
    | BulkResp.ok => batch.length
    | BulkResp.errs items => countSuccessItems items
    | BulkResp.throwErr => 0

/-- The batching loop of 02_sync.js lines 92-139.  The environment env
maps the loop offset i of a window and an attempt number (0 = first
request, 1 = the single retry issued when the first request throws) to
the bulk outcome.  fuel bounds the iterations; records.length iterations
always suffice because the selected batch size is at least 1. -/
def syncLoop (env : Nat → Nat → BulkResp) (records : List Rec)
    (batchSize fuel i syncedCount : Nat) : Nat :=
  match fuel with
  | 0 => syncedCount
  | fuel + 1 =>
    if i < records.length then
      syncLoop env records batchSize fuel (i + batchSize)
        (syncedCount + windowContribution env ((records.drop i).take batchSize) i)
    else
      syncedCount

/-- dynamicMicroBatch (02_sync.js lines 66-142): select the batch size by
probing, then run the batching loop from offset 0 and return the number
of records confirmed indexed. -/
def dynamicMicroBatch (env : Nat → Nat → BulkResp) (records : List Rec) : Nat :=
  syncLoop env records (finalBatchSize records) records.length 0 0

/-! ## syncFile and syncAll (02_sync.js lines 145-303) -/

/-- Result object of syncFile.  The deleted field records whether the
DeleteObjectCommand for the staged blob was issued (02_sync.js lines
173-183); the delete call itself is modelled as infallible, since a throw
from it takes the same catch path as a read failure. -/
structure SyncFileResult where
  success : Bool
  syncedRecords : Nat
  syncedIds : List Nat
  deleted : Bool
deriving DecidableEq, Repr

/-- Environment of syncAll / syncFile: the paginated unsynced_ listing
(already concatenated), the parsed JSONL content of each staged blob (an
error models a failed S3 read or a JSON.parse throw), the per-file bulk
environment, and the outcome of writing the sync-IDs checkpoint log. -/
structure SyncEnv where
  listing : Except String (List String)
  fileEnv : String → Except String (List Rec)
  bulk : String → Nat → Nat → BulkResp
  putLog : Except String Unit

/-- syncFile (02_sync.js lines 145-200): read and parse the blob, index
with dynamicMicroBatch, delete the blob only when syncedCount >=
records.length, and return the synced count and all record ids; any
throw is caught and yields success=false with zero counts. -/
def syncFile (env : SyncEnv) (filename : String) : SyncFileResult :=
  match env.fileEnv filename with
  | Except.error _ => ⟨false, 0, [], false⟩
  | Except.ok records =>
    let syncedCount := dynamicMicroBatch (env.bulk filename) records
    let syncedIds := records.map (fun r => r.id)
    ⟨true, syncedCount, syncedIds, decide (records.length ≤ syncedCount)⟩

/-- Result object of syncAll (02_sync.js lines 285-301).  Fields that the
source omits on some return paths (error, totalFiles, syncedIdsCount) are
none / 0 on those paths. -/
structure SyncAllResult where
  success : Bool
  error : Option String
  syncedFiles : Nat
  totalFiles : Nat
  totalRecords : Nat
  syncedIdsCount : Nat
deriving DecidableEq, Repr

/-- Insertion into the allSyncedIds Set (02_sync.js line 248): adding an
id already present is a no-op, otherwise it is appended in order. -/
def insertId (acc : List Nat) (id : Nat) : List Nat :=
  if acc.contains id then acc else acc ++ [id]

/-- Sorted insertion used to model files.sort on keys (02_sync.js line
231); locale comparison is abstracted to code-point order, which no
claim depends on. -/
def insertKey (a : String) : List String → List String
  | [] => [a]
  | b :: t => if b < a then b :: insertKey a t else a :: b :: t

def sortKeys (keys : List String) : List String :=
  keys.foldr insertKey []

/-- Per-file accumulation step of the loop at 02_sync.js lines 239-254:
only a successful syncFile result contributes its record count, its file,
and its ids. -/
def syncAllStep (env : SyncEnv) (acc : Nat × Nat × List Nat) (key : String) :
    Nat × Nat × List Nat :=
  let result := syncFile env key
  if result.success then
    (acc.1 + result.syncedRecords, acc.2.1 + 1, result.syncedIds.foldl insertId acc.2.2)
  else
    acc

/-- syncAll (02_sync.js lines 203-303): list the staged blobs, sync each
file in sorted order, write the checkpoint log when any id was synced,
and return the aggregate result; a throw from the listing or from the
log write is caught and yields success=false. -/
def syncAll (env : SyncEnv) : SyncAllResult :=
  match env.listing with
  | Except.error e => ⟨false, some e, 0, 0, 0, 0⟩
  | Except.ok keys =>
    if keys.isEmpty then ⟨true, none, 0, 0, 0, 0⟩
    else
      let files := sortKeys keys
      let folded := files.foldl (syncAllStep env) (0, 0, [])
      let totalSynced := folded.1
      let successCount := folded.2.1
      let allSyncedIds := folded.2.2
      if allSyncedIds.isEmpty then
        ⟨true, none, successCount, files.length, totalSynced, allSyncedIds.length⟩
      else
        match env.putLog with
        | Except.error e => ⟨false, some e, 0, 0, 0, 0⟩
        | Except.ok _ => ⟨true, none, successCount, files.length, totalSynced, allSyncedIds.length⟩

/-! ## The reconciler count comparison (01_download.js / 03_test, testSync
lines 252-273 of the combined file) -/

/-- Shape of the count-comparison result objects returned by testSync:
success flag, the actual destination count (totalRecords), and the
missing / extra fields, present only on the paths that set them. -/
structure CountVerdict where
  success : Bool
  totalRecords : Nat
  missing : Option Int
  extra : Option Int
deriving DecidableEq, Repr

/-- The count-comparison policy of testSync: missing = expected - actual;
missing == 0 passes; missing > 0 fails with that missing count; otherwise
expected == 0 passes, actual > expected passes, and the remaining branch
fails with extra = abs(missing). -/
def compareCounts (expected actual : Nat) : CountVerdict :=
  if (expected : Int) - (actual : Int) = 0 then ⟨true, actual, some 0, none⟩
  else if 0 < (expected : Int) - (actual : Int) then
    ⟨false, actual, some ((expected : Int) - (actual : Int)), none⟩
  else if expected = 0 then ⟨true, actual, some 0, none⟩
  else if expected < actual then ⟨true, actual, some 0, none⟩
  else ⟨false, actual, none, some ((((expected : Int) - (actual : Int)).natAbs : Nat) : Int)⟩

/-! ## markAsSynced (04_mark_synced.js lines 21-115) -/

/-- Result object of markAsSynced.  Fields the source omits on some paths
(totalIds, logFiles) are not needed by any claim and are left out. -/
structure MarkResult where
  success : Bool
  error : Option String
  totalUpdated : Nat
deriving DecidableEq, Repr

/-- Environment of markAsSynced: the prefix listing of checkpoint-log
keys (already sorted by LastModified), the syncedIds content of each log
(an error models a failed read or parse), and the per-batch update
outcome of the source store keyed by the batch start offset (the
supabase update returns an error value rather than throwing). -/
structure MarkEnv where
  listing : Except String (List String)
  readLog : String → Except String (List Nat)
  updateBatch : Nat → Option String

/-- Reading and unioning the ids of all checkpoint logs (04_mark_synced.js
lines 49-68); a throw while reading propagates to the outer catch. -/
def readLogs (env : MarkEnv) : List String → List Nat → Except String (List Nat)
  | [], acc => Except.ok acc
  | f :: rest, acc =>
    match env.readLog f with
    | Except.error e => Except.error e
    | Except.ok ids => readLogs env rest (ids.foldl insertId acc)

/-- The batched update loop of 04_mark_synced.js lines 77-95: windows of
1000 ids; a batch whose update reports an error is skipped (continue) and
contributes nothing to totalUpdated.  fuel bounds the iterations;
ids.length iterations always suffice. -/
def markLoop (env : MarkEnv) (ids : List Nat) (fuel i totalUpdated : Nat) : Nat :=
  match fuel with
  | 0 => totalUpdated
  | fuel + 1 =>
    if i < ids.length then
      let batch := (ids.drop i).take 1000
      match env.updateBatch i with
      | some _ => markLoop env ids fuel (i + 1000) totalUpdated
      | none => markLoop env ids fuel (i + 1000) (totalUpdated + batch.length)
    else
      totalUpdated

/-- markAsSynced (04_mark_synced.js lines 21-115): an empty checkpoint-log
listing returns the distinguished error, otherwise the union of all log
ids is marked in batches of 1000. -/
def markAsSynced (env : MarkEnv) : MarkResult :=
  match env.listing with
  | Except.error e => ⟨false, some e, 0⟩
  | Except.ok logFiles =>
    if logFiles.isEmpty then ⟨false, some "No sync log files found", 0⟩
    else
      match readLogs env logFiles [] with
      | Except.error e => ⟨false, some e, 0⟩
      | Except.ok syncedIds =>
        ⟨true, none, markLoop env syncedIds syncedIds.length 0 0⟩

/-! ## cleanS3 (05_clean_s3, lines 282-371 of the combined
06_orchestrate.js file) -/

/-- Substring test modelling String.prototype.includes. -/
def strContains (s pat : String) : Bool :=
  (List.range (s.length + 1)).any (fun i => pat.toList.isPrefixOf (s.toList.drop i))

structure S3Obj where
  key : String
deriving DecidableEq, Repr

/-- Keep predicate of the janitor (lines 306-309): keys containing
"summary" or "log/". -/
def keepFile (f : S3Obj) : Bool :=
  strContains f.key "summary" || strContains f.key "log/"

/-- Delete predicate of the janitor (lines 311-314). -/
def toDeletePred (f : S3Obj) : Bool :=
  !strContains f.key "summary" && !strContains f.key "log/"

/-- Environment of cleanS3: the full bucket listing, the outcome of each
DeleteObjectCommand keyed by object key, and the cleanup-log write. -/
structure CleanEnv where
  listing : Except String (List S3Obj)
  deleteObj : String → Except String Unit
  logSave : Except String Unit

/-- Result object of cleanS3 (lines 357-369). -/
structure CleanS3Result where
  success : Bool
  error : Option String
  totalFiles : Nat
  filesDeleted : Nat
  filesKept : Nat
deriving DecidableEq, Repr

/-- The deletion loop of lines 320-333: each await s3Client.send is
un-guarded, so a throw aborts the loop and propagates to the outer catch.
Returns the error (if any), the keys whose deletion was attempted in
order, and the number of completed deletions. -/
def deleteLoop (env : CleanEnv) :
    List S3Obj → List String → Nat → Option String × List String × Nat
  | [], attempted, count => (none, attempted, count)
  | f :: rest, attempted, count =>
    match env.deleteObj f.key with
    | Except.error e => (some e, attempted ++ [f.key], count)
    | Except.ok _ => deleteLoop env rest (attempted ++ [f.key]) (count + 1)

/-- cleanS3 (lines 282-371): list everything, partition by the keep
predicate, delete the delete-set object by object, write the cleanup log,
and return the totals; any throw is caught and yields success=false.
The second component is the list of keys whose deletion was attempted. -/
def cleanS3 (env : CleanEnv) : CleanS3Result × List String :=
  match env.listing with
  | Except.error e => (⟨false, some e, 0, 0, 0⟩, [])
  | Except.ok files =>
    let filesToKeep := files.filter keepFile
    let filesToDelete := files.filter toDeletePred
    match deleteLoop env filesToDelete [] 0 with
    | (some e, attempted, _) => (⟨false, some e, 0, 0, 0⟩, attempted)
    | (none, attempted, deletedCount) =>
      match env.logSave with
      | Except.error e => (⟨false, some e, 0, 0, 0⟩, attempted)
      | Except.ok _ =>
        (⟨true, none, files.length, deletedCount, filesToKeep.length⟩, attempted)

/-! ## The orchestrator (06_orchestrate.js lines 44-250) -/

structure DownloadResult where
  success : Bool
  totalRecords : Nat
deriving DecidableEq, Repr

/-- Result object of testSync as consumed by the orchestrator. -/
structure TestOutcome where
  success : Bool
  missing : Option Int
deriving DecidableEq, Repr

/-- Result object of the clean stage as consumed by the orchestrator. -/
structure CleanResult where
  success : Bool
  error : Option String
  filesDeleted : Nat
deriving DecidableEq, Repr

/-- Environment of orchestrate: the download outcome (an error models a
throw), the result of the k-th syncAll call (0 = the initial sync, k >= 1
= resync attempt k), the result of the k-th testSync call, the mark
outcome, the clean result, and the saveTimestampLog outcome. -/
structure OrchEnv where
  download : Except String DownloadResult
  sync : Nat → SyncAllResult
  test : Nat → TestOutcome
  mark : Except String MarkResult
  clean : CleanResult
  logSave : Except String Unit

/-- MAX_RETRIES of the resync loop (06_orchestrate.js line 91). -/
def MAX_RETRIES : Nat := 3

/-- Outcome of the resync loop: fatal is the return at line 102
(resync failed on the final allowed attempt); done carries the final
retryCount and the final currentTestResult. -/
inductive ResyncOut where
  | fatal
  | done (retryCount : Nat) (result : TestOutcome)
deriving DecidableEq, Repr

/-- The resync loop of 06_orchestrate.js lines 90-109 (identically lines
82-103 of the unnamed orchestrator variant): while the current test
failed and retryCount < MAX_RETRIES, increment retryCount, resync, and on
a failed resync either abort fatally (when retryCount >= MAX_RETRIES) or
continue; on a successful resync re-run the test.  fuel is the remaining
allowance MAX_RETRIES - retryCount, making the recursion structural. -/
def resyncLoop (env : OrchEnv) (fuel retryCount : Nat) (current : TestOutcome) : ResyncOut :=
  match fuel with
  | 0 => ResyncOut.done retryCount current
  | fuel + 1 =>
    if current.success then ResyncOut.done retryCount current
    else
      let rc := retryCount + 1
      let reSyncResult := env.sync rc
      if reSyncResult.success = false then
        if MAX_RETRIES ≤ rc then ResyncOut.fatal
        else resyncLoop env fuel rc current
      else
        resyncLoop env fuel rc (env.test rc)

/-- The run summary assembled by orchestrate.  mark is an Option: none
models the JavaScript undefined that JSON.stringify drops from the
artifact.  Wall-clock fields (timestamps, duration) are not modelled. -/
structure Summary where
  download : DownloadResult
  sync : SyncAllResult
  test : TestOutcome
  mark : Option MarkResult
  clean : Option CleanResult
  success : Bool
deriving DecidableEq, Repr

/-- Terminal result of orchestrate: failed carries the step field (absent
on the outer catch path) and the error field. -/
inductive OrchResult where
  | failed (step : Option String) (error : Option String)
  | succeeded (summary : Summary)
deriving DecidableEq, Repr

/-- orchestrate (06_orchestrate.js lines 44-250).  Returns the terminal
result together with the list of run-summary artifacts written by
saveTimestampLog.

The source declares let markResult at line 82 and never assigns it: the
const markResult at line 135 is a new block-scoped binding inside the try
block.  After that block, summary.mark (line 209) therefore reads the
outer variable, still undefined (modelled as none), and the template read
markResult.totalUpdated at line 222 throws a TypeError on undefined,
which the outer catch turns into a success=false return without a step
field - after the summary artifact was already written at line 214. -/
def orchestrate (env : OrchEnv) : OrchResult × List Summary :=
  match env.download with
  | Except.error e => (OrchResult.failed (some "download") (some e), [])
  | Except.ok downloadResult =>
    if downloadResult.success = false then
      (OrchResult.failed (some "download") (some "Download failed"), [])
    else
      let syncResult := env.sync 0
      if syncResult.success = false then
        (OrchResult.failed (some "sync") syncResult.error, [])
      else
        let testResult := env.test 0
        match resyncLoop env MAX_RETRIES 0 testResult with
        | ResyncOut.fatal =>
          (OrchResult.failed (some "resync") (some "Re-sync failed after max retries"), [])
        | ResyncOut.done _ _ =>
          match env.mark with
          | Except.error e => (OrchResult.failed (some "mark") (some e), [])
          | Except.ok markResultInner =>
            if markResultInner.success = false ∧
                markResultInner.error = some "No sync log files found" ∧
                downloadResult.totalRecords = 0 then
              let summary : Summary :=
                { download := downloadResult, sync := syncResult, test := testResult,
                  mark := some ⟨true, none, 0⟩,
                  clean := some ⟨true, none, 0⟩,
                  success := true }
              match env.logSave with
              | Except.error e => (OrchResult.failed (some "mark") (some e), [])
              | Except.ok _ => (OrchResult.succeeded summary, [summary])
            else if markResultInner.success = false then
              (OrchResult.failed (some "mark") markResultInner.error, [])
            else
              let cleanResult := env.clean
              if cleanResult.success = false then
                (OrchResult.failed (some "clean") cleanResult.error, [])
              else
                let summary : Summary :=
                  { download := downloadResult, sync := syncResult, test := testResult,
                    mark := none,
                    clean := some cleanResult,
                    success := true }
                match env.logSave with
                | Except.error e => (OrchResult.failed none (some e), [])
                | Except.ok _ =>
                  (OrchResult.failed none
                    (some "Cannot read properties of undefined"), [summary])

/-! ## Environment well-formedness and concrete inputs used by witnesses
and counterexamples -/

/-- A bulk environment is well-formed for a blob and a batch size when
every errors=true response carries at most one item per record of the
window it answers: the destination cannot acknowledge more items than the
request contained. -/
def wfEnv (env : Nat → Nat → BulkResp) (records : List Rec) (b : Nat) : Prop :=
  ∀ i a items, env i a = BulkResp.errs items →
    items.length ≤ ((records.drop i).take b).length

/-- A record whose serialized document alone is about 3 MB. -/
def bigRec : Rec := ⟨1, 60, 3000000⟩

/-- A small record: 60-byte action metadata, 10-byte document. -/
def tinyRec : Rec := ⟨7, 60, 10⟩

/-- A blob of 26 small records: the probe cap min(25, 26) = 25 binds. -/
def tinyBlob : List Rec := List.replicate 26 tinyRec

/-- A two-record blob used by witnesses. -/
def recsTwo : List Rec := [⟨1, 60, 10⟩, ⟨2, 60, 11⟩]

/-- A five-record blob used by witnesses. -/
def recsFive : List Rec := List.replicate 5 tinyRec

/-- A bulk environment whose every response has errors=false. -/
def okBulk : Nat → Nat → BulkResp := fun _ _ => BulkResp.ok

/-- A bulk environment where the first window's first request throws and
its retry reports one successful and one failed item. -/
def retryBulk : Nat → Nat → BulkResp := fun i a =>
  if i = 0 ∧ a = 0 then BulkResp.throwErr
  else if i = 0 ∧ a = 1 then BulkResp.errs [some 201, some 429]
  else BulkResp.ok

/-- A sync environment with one healthy staged blob. -/
def okSyncEnv : SyncEnv :=
  { listing := Except.ok ["unsynced_0001.jsonl"],
    fileEnv := fun _ => Except.ok recsTwo,
    bulk := fun _ => okBulk,
    putLog := Except.ok () }

/-- A sync environment whose single staged blob fails to parse. -/
def parseFailSyncEnv : SyncEnv :=
  { listing := Except.ok ["unsynced_0001.jsonl"],
    fileEnv := fun _ => Except.error "SyntaxError",
    bulk := fun _ => okBulk,
    putLog := Except.ok () }

/-- A sync environment whose listing step throws. -/
def listFailSyncEnv : SyncEnv :=
  { listing := Except.error "ListTimeout",
    fileEnv := fun _ => Except.ok recsTwo,
    bulk := fun _ => okBulk,
    putLog := Except.ok () }

/-- A mark environment with no checkpoint logs. -/
def emptyMarkEnv : MarkEnv :=
  { listing := Except.ok [],
    readLog := fun _ => Except.ok [],
    updateBatch := fun _ => none }

/-- A janitor environment with two staged blobs where deleting the first
one fails. -/
def cleanCxEnv : CleanEnv :=
  { listing := Except.ok [⟨"unsynced_0001.jsonl"⟩, ⟨"unsynced_0002.jsonl"⟩],
    deleteObj := fun k =>
      if k = "unsynced_0001.jsonl" then Except.error "AccessDenied" else Except.ok (),
    logSave := Except.ok () }

/-- A janitor environment with three staged blobs where the deletion of
the second one fails after the first one was deleted successfully. -/
def cleanMidFailEnv : CleanEnv :=
  { listing := Except.ok
      [⟨"unsynced_0001.jsonl"⟩, ⟨"unsynced_0002.jsonl"⟩, ⟨"unsynced_0003.jsonl"⟩],
    deleteObj := fun k =>
      if k = "unsynced_0002.jsonl" then Except.error "AccessDenied" else Except.ok (),
    logSave := Except.ok () }

/-- A successful syncAll stage result. -/
def okSyncResult : SyncAllResult := ⟨true, none, 1, 1, 5, 5⟩

/-- A failed syncAll stage result. -/
def failSyncResult : SyncAllResult := ⟨false, some "bulk rejected", 0, 0, 0, 0⟩

def passTest : TestOutcome := ⟨true, none⟩

def failTest : TestOutcome := ⟨false, some 3⟩

/-- Orchestration environment: first test fails, the one resync and its
re-test succeed. -/
def resyncEnvA : OrchEnv :=
  { download := Except.ok ⟨true, 5⟩,
    sync := fun _ => okSyncResult,
    test := fun k => if k = 0 then failTest else passTest,
    mark := Except.ok ⟨true, none, 5⟩,
    clean := ⟨true, none, 0⟩,
    logSave := Except.ok () }

/-- Orchestration environment: first test fails, resync attempt 1 fails,
attempt 2 and its re-test succeed. -/
def resyncEnvB : OrchEnv :=
  { download := Except.ok ⟨true, 5⟩,
    sync := fun k => if k = 1 then failSyncResult else okSyncResult,
    test := fun k => if k = 2 then passTest else failTest,
    mark := Except.ok ⟨true, none, 5⟩,
    clean := ⟨true, none, 0⟩,
    logSave := Except.ok () }

/-- Orchestration environment: the first test and every resync fail. -/
def resyncEnvC : OrchEnv :=
  { download := Except.ok ⟨true, 5⟩,
    sync := fun k => if k = 0 then okSyncResult else failSyncResult,
    test := fun _ => failTest,
    mark := Except.ok ⟨true, none, 5⟩,
    clean := ⟨true, none, 0⟩,
    logSave := Except.ok () }

/-- Orchestration environment: every test fails, every resync succeeds,
and the mark stage then fails with an ordinary error. -/
def resyncEnvD : OrchEnv :=
  { download := Except.ok ⟨true, 5⟩,
    sync := fun _ => okSyncResult,
    test := fun _ => failTest,
    mark := Except.ok ⟨false, some "update exploded", 0⟩,
    clean := ⟨true, none, 0⟩,
    logSave := Except.ok () }

/-- Orchestration environment for the no-new-data case: zero records
downloaded and the mark stage reports the distinguished error. -/
def noDataEnv : OrchEnv :=
  { download := Except.ok ⟨true, 0⟩,
    sync := fun _ => okSyncResult,
    test := fun _ => passTest,
    mark := Except.ok ⟨false, some "No sync log files found", 0⟩,
    clean := ⟨true, none, 0⟩,
    logSave := Except.ok () }

/-- Orchestration environment in which every stage succeeds. -/
def allOkEnv : OrchEnv :=
  { download := Except.ok ⟨true, 5⟩,
    sync := fun _ => okSyncResult,
    test := fun _ => passTest,
    mark := Except.ok ⟨true, none, 5⟩,
    clean := ⟨true, none, 3⟩,
    logSave := Except.ok () }

/-! ## Lemmas about the payload function and the probe -/

theorem payloadSize_zero (records : List Rec) : payloadSize records 0 = 2 := rfl

theorem payloadSize_of_take_nil (records : List Rec) (k : Nat)
    (h : records.take k = []) : payloadSize records k = 2 := by
  unfold payloadSize
  rw [h]

theorem payloadSize_of_take_cons (records : List Rec) (k : Nat) (a : Rec) (t : List Rec)
    (h : records.take k = a :: t) :
    payloadSize records k =
      1 + ((a :: t).map (fun r => r.actionBytes + r.docBytes + 2)).sum := by
  unfold payloadSize
  rw [h]

theorem sum_map_take_mono (f : Rec → Nat) (records : List Rec) {k l : Nat} (h : k ≤ l) :
    ((records.take k).map f).sum ≤ ((records.take l).map f).sum := by
  have h1 : records.take l = records.take k ++ (records.take l).drop k := by
    conv_lhs => rw [← List.take_append_drop k (records.take l)]
    rw [List.take_take, Nat.min_eq_left h]
  rw [h1, List.map_append, List.sum_append]
  exact Nat.le_add_right _ _

theorem payloadSize_mono (records : List Rec) {k l : Nat} (h : k ≤ l) :
    payloadSize records k ≤ payloadSize records l := by
  cases hk : records.take k with
  | nil =>
    cases hl : records.take l with
    | nil =>
      rw [payloadSize_of_take_nil records k hk, payloadSize_of_take_nil records l hl]
    | cons b bt =>
      rw [payloadSize_of_take_nil records k hk, payloadSize_of_take_cons records l b bt hl]
      simp only [List.map_cons, List.sum_cons]
      omega
  | cons a at' =>
    cases hl : records.take l with
    | nil =>
      exfalso
      have hknil : records.take k = [] := by
        rcases List.take_eq_nil_iff.mp hl with h0 | h0
        · have : k = 0 := by omega
          rw [this]
          rfl
        · rw [h0]
          simp
      rw [hknil] at hk
      exact List.noConfusion hk
    | cons b bt =>
      rw [payloadSize_of_take_cons records k a at' hk,
        payloadSize_of_take_cons records l b bt hl]
      have hs := sum_map_take_mono (fun r => r.actionBytes + r.docBytes + 2) records h
      rw [hk, hl] at hs
      omega

theorem probeLoop_zero (records : List Rec) (t cur : Nat) :
    probeLoop records 0 t cur = cur := rfl

theorem probeLoop_all_fit (records : List Rec) :
    ∀ fuel t cur,
      (∀ s, t ≤ s → s < t + fuel → payloadSize records s ≤ MAX_PAYLOAD_BYTES) →
      probeLoop records fuel t cur = if fuel = 0 then cur else t + fuel - 1 := by
  intro fuel
  induction fuel with
  | zero => intro t cur _; rfl
  | succ n ih =>
    intro t cur h
    have hfit : payloadSize records t ≤ MAX_PAYLOAD_BYTES := h t le_rfl (by omega)
    show probeLoop records (n + 1) t cur = _
    unfold probeLoop
    rw [if_pos hfit]
    rw [ih (t + 1) t (fun s hs1 hs2 => h s (by omega) (by omega))]
    split
    · next h0 => simp [h0]
    · next h0 =>
      have : ¬ (n + 1 = 0) := by omega
      rw [if_neg this]
      omega

theorem probeLoop_break (records : List Rec) :
    ∀ fuel t cur k, t ≤ k → k < t + fuel →
      (∀ s, t ≤ s → s < k → payloadSize records s ≤ MAX_PAYLOAD_BYTES) →
      MAX_PAYLOAD_BYTES < payloadSize records k →
      probeLoop records fuel t cur = if t = k then cur else k - 1 := by
  intro fuel
  induction fuel with
  | zero => intro t cur k h1 h2 _ _; omega
  | succ n ih =>
    intro t cur k h1 h2 hbelow hbreak
    by_cases ht : t = k
    · subst ht
      show probeLoop records (n + 1) t cur = _
      unfold probeLoop
      rw [if_neg (by omega), if_pos rfl]
    · have htk : t < k := lt_of_le_of_ne h1 ht
      have hfit : payloadSize records t ≤ MAX_PAYLOAD_BYTES := hbelow t le_rfl htk
      show probeLoop records (n + 1) t cur = _
      unfold probeLoop
      rw [if_pos hfit]
      rw [ih (t + 1) t k (by omega) (by omega) (fun s a b => hbelow s (by omega) b) hbreak]
      rw [if_neg ht]
      split
      · next h0 => omega
      · next h0 => rfl

theorem probeLoop_pos (records : List Rec) :
    ∀ fuel t cur, 0 < t → 0 < cur → 0 < probeLoop records fuel t cur := by
  intro fuel
  induction fuel with
  | zero => intro t cur _ h; exact h
  | succ n ih =>
    intro t cur ht hcur
    show 0 < probeLoop records (n + 1) t cur
    unfold probeLoop
    split
    · exact ih (t + 1) t (by omega) ht
    · exact hcur

/-- C1 counterexample.  The claim that the probe always selects a batch
size whose payload is at or under the 2 MB ceiling, and such that one
more record would exceed it, is false on the code at two concrete blobs:
for a single record of about 3 MB the probe keeps finalBatchSize = 1 even
though that one-record payload is over the ceiling, and for a blob of 26
uniform small records the probe stops at the cap of 25 even though a
batch of 26 would still be far under the ceiling. -/
theorem probe_claim_counterexample :
    (finalBatchSize [bigRec] = 1 ∧
      MAX_PAYLOAD_BYTES < payloadSize [bigRec] (finalBatchSize [bigRec])) ∧
    (finalBatchSize tinyBlob = 25 ∧
      payloadSize tinyBlob (finalBatchSize tinyBlob + 1) ≤ MAX_PAYLOAD_BYTES) := by
  decide

/-- C1 (amended).  Whenever the one-record payload fits under the 2 MB
ceiling, the probe of dynamicMicroBatch selects the largest batch size B
at most min(25, records.length) whose serialized bulk payload is at or
under the ceiling; and whenever the selected B is strictly below that
cap, the payload of B+1 records exceeds the ceiling.  (When even a single
record exceeds the ceiling the probe keeps B = 1, and at the cap B+1 need
not exceed the ceiling: see the counterexample.) -/
theorem finalBatchSize_largest_fit (records : List Rec)
    (hfit : payloadSize records 1 ≤ MAX_PAYLOAD_BYTES) :
    payloadSize records (finalBatchSize records) ≤ MAX_PAYLOAD_BYTES ∧
    (∀ B, B ≤ min INITIAL_BATCH_SIZE records.length →
      payloadSize records B ≤ MAX_PAYLOAD_BYTES → B ≤ finalBatchSize records) ∧
    (finalBatchSize records < min INITIAL_BATCH_SIZE records.length →
      MAX_PAYLOAD_BYTES < payloadSize records (finalBatchSize records + 1)) := by
  by_cases hex : ∃ k, k ≤ min INITIAL_BATCH_SIZE records.length ∧
      MAX_PAYLOAD_BYTES < payloadSize records k
  · obtain ⟨k0, hk0m, hk0gt, hmin⟩ :
        ∃ k0, k0 ≤ min INITIAL_BATCH_SIZE records.length ∧
          MAX_PAYLOAD_BYTES < payloadSize records k0 ∧
          ∀ s, s < k0 → ¬ (s ≤ min INITIAL_BATCH_SIZE records.length ∧
            MAX_PAYLOAD_BYTES < payloadSize records s) :=
      ⟨Nat.find hex, (Nat.find_spec hex).1, (Nat.find_spec hex).2,
        fun s hs => Nat.find_min hex hs⟩
    have hk0two : 2 ≤ k0 := by
      have hcase : k0 = 0 ∨ k0 = 1 ∨ 2 ≤ k0 := by omega
      rcases hcase with h | h | h
      · exfalso
        rw [h, payloadSize_zero] at hk0gt
        have hM : MAX_PAYLOAD_BYTES = 2097152 := by decide
        omega
      · exfalso
        rw [h] at hk0gt
        omega
      · exact h
    have hbelow : ∀ s, 1 ≤ s → s < k0 →
        payloadSize records s ≤ MAX_PAYLOAD_BYTES := by
      intro s h1 hs
      have hnot := hmin s hs
      push_neg at hnot
      exact hnot (by omega)
    have hfbs : finalBatchSize records = k0 - 1 := by
      unfold finalBatchSize
      rw [probeLoop_break records (min INITIAL_BATCH_SIZE records.length) 1 1 k0
        (by omega) (by omega) hbelow hk0gt]
      rw [if_neg (by omega)]
    refine ⟨?_, ?_, ?_⟩
    · rw [hfbs]
      exact hbelow (k0 - 1) (by omega) (by omega)
    · intro B hBm hBfit
      rw [hfbs]
      by_contra hBig
      have hge : k0 ≤ B := by omega
      have hmono := payloadSize_mono records hge
      omega
    · intro _
      rw [hfbs]
      have he : k0 - 1 + 1 = k0 := by omega
      rw [he]
      exact hk0gt
  · push_neg at hex
    cases hmz : min INITIAL_BATCH_SIZE records.length with
    | zero =>
      have hfbs : finalBatchSize records = 1 := by
        unfold finalBatchSize
        rw [hmz]
        rfl
      refine ⟨?_, ?_, ?_⟩
      · rw [hfbs]; exact hfit
      · intro B hB _
        rw [hfbs]
        omega
      · intro hlt
        exact absurd hlt (Nat.not_lt_zero _)
    | succ n =>
      have hfbs : finalBatchSize records = n + 1 := by
        unfold finalBatchSize
        rw [hmz]
        rw [probeLoop_all_fit records (n + 1) 1 1
          (fun s hs1 hs2 => hex s (by rw [hmz]; omega))]
        simp
      refine ⟨?_, ?_, ?_⟩
      · rw [hfbs]
        exact hex (n + 1) (by rw [hmz])
      · intro B hB _
        rw [hfbs]
        omega
      · intro hlt
        rw [hfbs] at hlt
        exact absurd hlt (lt_irrefl _)

/-- C1 witness: the amended theorem applied to the 26-record uniform
blob. -/
theorem finalBatchSize_largest_fit_witness :
    payloadSize tinyBlob 1 ≤ MAX_PAYLOAD_BYTES ∧
    (payloadSize tinyBlob (finalBatchSize tinyBlob) ≤ MAX_PAYLOAD_BYTES ∧
      (∀ B, B ≤ min INITIAL_BATCH_SIZE tinyBlob.length →
        payloadSize tinyBlob B ≤ MAX_PAYLOAD_BYTES → B ≤ finalBatchSize tinyBlob) ∧
      (finalBatchSize tinyBlob < min INITIAL_BATCH_SIZE tinyBlob.length →
        MAX_PAYLOAD_BYTES < payloadSize tinyBlob (finalBatchSize tinyBlob + 1))) :=
  ⟨by decide, finalBatchSize_largest_fit tinyBlob (by decide)⟩

/-- C9.  The probe never selects a batch size below 1, so a non-empty
blob is always sent; in particular when even the single-record payload
exceeds the 2 MB ceiling, the selected batch size is exactly 1 and the
resulting request payload exceeds the stated ceiling. -/
theorem finalBatchSize_at_least_one (records : List Rec) :
    (records ≠ [] → 1 ≤ finalBatchSize records) ∧
    (MAX_PAYLOAD_BYTES < payloadSize records 1 →
      finalBatchSize records = 1 ∧
      MAX_PAYLOAD_BYTES < payloadSize records (finalBatchSize records)) := by
  constructor
  · intro _
    exact probeLoop_pos records _ 1 1 (by omega) (by omega)
  · intro h
    have hfbs : finalBatchSize records = 1 := by
      unfold finalBatchSize
      cases hmz : min INITIAL_BATCH_SIZE records.length with
      | zero => rfl
      | succ n =>
        show probeLoop records (n + 1) 1 1 = 1
        unfold probeLoop
        rw [if_neg (by omega)]
    exact ⟨hfbs, by rw [hfbs]; exact h⟩

/-- C9 witness: a single record of about 3 MB. -/
theorem finalBatchSize_at_least_one_witness :
    ([bigRec] ≠ []) ∧
    (MAX_PAYLOAD_BYTES < payloadSize [bigRec] 1) ∧
    (1 ≤ finalBatchSize [bigRec]) ∧
    (finalBatchSize [bigRec] = 1 ∧
      MAX_PAYLOAD_BYTES < payloadSize [bigRec] (finalBatchSize [bigRec])) :=
  ⟨by decide, by decide,
    (finalBatchSize_at_least_one [bigRec]).1 (by decide),
    (finalBatchSize_at_least_one [bigRec]).2 (by decide)⟩

/-! ## Lemmas about the indexing loop -/

theorem countSuccessItems_le (items : List (Option Nat)) :
    countSuccessItems items ≤ items.length :=
  List.length_filter_le _ _

theorem syncLoop_succ (env : Nat → Nat → BulkResp) (records : List Rec)
    (batchSize fuel i syncedCount : Nat) :
    syncLoop env records batchSize (fuel + 1) i syncedCount =
      if i < records.length then
        syncLoop env records batchSize fuel (i + batchSize)
          (syncedCount + windowContribution env ((records.drop i).take batchSize) i)
      else syncedCount := rfl

theorem windowContribution_le (env : Nat → Nat → BulkResp) (records : List Rec)
    (b i : Nat) (hwf : wfEnv env records b) :
    windowContribution env ((records.drop i).take b) i ≤
      ((records.drop i).take b).length := by
  unfold windowContribution
  cases h0 : env i 0 with
  | ok => exact le_rfl
  | errs items => exact le_trans (countSuccessItems_le items) (hwf i 0 items h0)
  | throwErr =>
    cases h1 : env i 1 with
    | ok => exact le_rfl
    | errs items => exact le_trans (countSuccessItems_le items) (hwf i 1 items h1)
    | throwErr => exact Nat.zero_le _

theorem syncLoop_le (env : Nat → Nat → BulkResp) (records : List Rec) (b : Nat)
    (hwf : wfEnv env records b) :
    ∀ fuel i s, syncLoop env records b fuel i s ≤ s + (records.length - i) := by
  intro fuel
  induction fuel with
  | zero => intro i s; simp [syncLoop]
  | succ n ih =>
    intro i s
    rw [syncLoop_succ]
    by_cases hi : i < records.length
    · rw [if_pos hi]
      have hc := windowContribution_le env records b i hwf
      have hlen : ((records.drop i).take b).length = min b (records.length - i) := by
        rw [List.length_take, List.length_drop]
      have hrec := ih (i + b) (s + windowContribution env ((records.drop i).take b) i)
      omega
    · rw [if_neg hi]
      omega

/-- C2.  For a readable staged blob and a well-formed destination, the
blob is deleted from staging exactly when the confirmed-indexed count of
dynamicMicroBatch equals the blob record count: any unconfirmed record
keeps the blob. -/
theorem syncFile_delete_iff (env : SyncEnv) (filename : String) (records : List Rec)
    (hread : env.fileEnv filename = Except.ok records)
    (hwf : wfEnv (env.bulk filename) records (finalBatchSize records)) :
    ((syncFile env filename).deleted = true ↔
      dynamicMicroBatch (env.bulk filename) records = records.length) := by
  have hle : dynamicMicroBatch (env.bulk filename) records ≤ records.length := by
    have := syncLoop_le (env.bulk filename) records (finalBatchSize records) hwf
      records.length 0 0
    unfold dynamicMicroBatch
    omega
  unfold syncFile
  rw [hread]
  simp only [decide_eq_true_eq]
  omega

/-- C2 witness: a two-record blob with an all-successful destination. -/
theorem syncFile_delete_iff_witness :
    (okSyncEnv.fileEnv "unsynced_0001.jsonl" = Except.ok recsTwo) ∧
    wfEnv (okSyncEnv.bulk "unsynced_0001.jsonl") recsTwo (finalBatchSize recsTwo) ∧
    ((syncFile okSyncEnv "unsynced_0001.jsonl").deleted = true ↔
      dynamicMicroBatch (okSyncEnv.bulk "unsynced_0001.jsonl") recsTwo = recsTwo.length) :=
  ⟨rfl, fun _ _ _ h => BulkResp.noConfusion h,
    syncFile_delete_iff okSyncEnv "unsynced_0001.jsonl" recsTwo rfl
      (fun _ _ _ h => BulkResp.noConfusion h)⟩

/-- C6.  A window whose first bulk request throws is retried exactly
once: the loop consults only attempt 1, counts the whole window when the
retry has errors=false, only the individually-successful items when the
retry reports errors, and zero when the retry throws as well, and in
every case continues with the next window; moreover the loop never
consults any attempt beyond 1. -/
theorem bulk_window_retry_once (env : Nat → Nat → BulkResp) (records : List Rec)
    (b fuel i s : Nat) (hi : i < records.length)
    (hthrow : env i 0 = BulkResp.throwErr) :
    (syncLoop env records b (fuel + 1) i s =
      syncLoop env records b fuel (i + b)
        (s + match env i 1 with
             | BulkResp.ok => ((records.drop i).take b).length
             | BulkResp.errs items => countSuccessItems items
             | BulkResp.throwErr => 0)) ∧
    (∀ env' : Nat → Nat → BulkResp,
      (∀ j a, a ≤ 1 → env j a = env' j a) →
      ∀ fuel' i' s', syncLoop env records b fuel' i' s' =
        syncLoop env' records b fuel' i' s') := by
  constructor
  · rw [syncLoop_succ, if_pos hi]
    unfold windowContribution
    rw [hthrow]
  · intro env' hagree fuel'
    induction fuel' with
    | zero => intro i' s'; rfl
    | succ n ih =>
      intro i' s'
      rw [syncLoop_succ, syncLoop_succ]
      by_cases hi' : i' < records.length
      · rw [if_pos hi', if_pos hi']
        have hw : windowContribution env ((records.drop i').take b) i' =
            windowContribution env' ((records.drop i').take b) i' := by
          unfold windowContribution
          rw [hagree i' 0 (by omega), hagree i' 1 (by omega)]
        rw [hw, ih]
      · rw [if_neg hi', if_neg hi']

/-- C6 witness: a five-record blob whose first window throws and whose
retry reports one successful and one failed item. -/
theorem bulk_window_retry_once_witness :
    (0 < recsFive.length) ∧
    (retryBulk 0 0 = BulkResp.throwErr) ∧
    ((syncLoop retryBulk recsFive 2 5 0 0 =
      syncLoop retryBulk recsFive 2 4 2
        (0 + match retryBulk 0 1 with
             | BulkResp.ok => ((recsFive.drop 0).take 2).length
             | BulkResp.errs items => countSuccessItems items
             | BulkResp.throwErr => 0)) ∧
    (∀ env' : Nat → Nat → BulkResp,
      (∀ j a, a ≤ 1 → retryBulk j a = env' j a) →
      ∀ fuel' i' s', syncLoop retryBulk recsFive 2 fuel' i' s' =
        syncLoop env' recsFive 2 fuel' i' s')) :=
  ⟨by decide, by decide,
    bulk_window_retry_once retryBulk recsFive 2 4 0 0 (by decide) (by decide)⟩

/-- C3.  The reconciler count comparison: equal counts pass with missing
0; expected above actual fails with missing = expected - actual; expected
0 with a larger actual passes; a larger actual with positive expected
passes; and the five concrete scenarios of the spec behave as stated. -/
theorem compareCounts_policy :
    (∀ e a : Nat, e = a → compareCounts e a = ⟨true, a, some 0, none⟩) ∧
    (∀ e a : Nat, a < e →
      compareCounts e a = ⟨false, a, some ((e : Int) - (a : Int)), none⟩) ∧
    (∀ a : Nat, 0 < a → compareCounts 0 a = ⟨true, a, some 0, none⟩) ∧
    (∀ e a : Nat, 0 < e → e < a → compareCounts e a = ⟨true, a, some 0, none⟩) ∧
    compareCounts 0 0 = ⟨true, 0, some 0, none⟩ ∧
    compareCounts 100 100 = ⟨true, 100, some 0, none⟩ ∧
    compareCounts 100 80 = ⟨false, 80, some 20, none⟩ ∧
    compareCounts 100 120 = ⟨true, 120, some 0, none⟩ ∧
    compareCounts 50 0 = ⟨false, 0, some 50, none⟩ := by
  refine ⟨?_, ?_, ?_, ?_, by decide, by decide, by decide, by decide, by decide⟩
  · intro e a h
    unfold compareCounts
    rw [if_pos (by omega)]
  · intro e a h
    unfold compareCounts
    rw [if_neg (by omega), if_pos (by omega)]
  · intro a h
    unfold compareCounts
    rw [if_neg (by omega), if_neg (by omega), if_pos rfl]
  · intro e a he hlt
    unfold compareCounts
    rw [if_neg (by omega), if_neg (by omega), if_neg (by omega), if_pos hlt]

/-- C3 witness: the branch facts applied at concrete counts. -/
theorem compareCounts_policy_witness :
    compareCounts 7 7 = ⟨true, 7, some 0, none⟩ ∧
    compareCounts 9 4 = ⟨false, 4, some 5, none⟩ ∧
    compareCounts 0 3 = ⟨true, 3, some 0, none⟩ ∧
    compareCounts 2 6 = ⟨true, 6, some 0, none⟩ :=
  ⟨compareCounts_policy.1 7 7 rfl,
    compareCounts_policy.2.1 9 4 (by omega),
    compareCounts_policy.2.2.1 3 (by omega),
    compareCounts_policy.2.2.2.1 2 6 (by omega) (by omega)⟩

/-- C10.  syncAll is best-effort over files: a file whose read or parse
throws yields a per-file result with success=false, zero synced records
and no ids; any run whose listing succeeds and whose checkpoint-log write
succeeds reports overall success no matter how many files failed; and a
listing failure reports overall failure. -/
theorem syncAll_best_effort :
    (∀ (env : SyncEnv) (key e : String), env.fileEnv key = Except.error e →
      syncFile env key = ⟨false, 0, [], false⟩) ∧
    (∀ (env : SyncEnv) (keys : List String),
      env.listing = Except.ok keys → env.putLog = Except.ok () →
      (syncAll env).success = true) ∧
    (∀ (env : SyncEnv) (e : String), env.listing = Except.error e →
      syncAll env = ⟨false, some e, 0, 0, 0, 0⟩) := by
  refine ⟨?_, ?_, ?_⟩
  · intro env key e h
    unfold syncFile
    rw [h]
  · intro env keys hl hp
    by_cases hk : keys.isEmpty
    · simp [syncAll, hl, hk]
    · by_cases hi : (List.foldl (syncAllStep env) (0, 0, []) (sortKeys keys)).2.2.isEmpty
      · simp [syncAll, hl, hk, hi]
      · simp [syncAll, hl, hk, hi, hp]
  · intro env e h
    unfold syncAll
    rw [h]

/-- C10 witness: a staged blob whose parse throws still leaves syncAll
successful, and a failed listing fails the stage. -/
theorem syncAll_best_effort_witness :
    (parseFailSyncEnv.fileEnv "unsynced_0001.jsonl" = Except.error "SyntaxError") ∧
    (syncFile parseFailSyncEnv "unsynced_0001.jsonl" = ⟨false, 0, [], false⟩) ∧
    ((syncAll parseFailSyncEnv).success = true) ∧
    (syncAll listFailSyncEnv = ⟨false, some "ListTimeout", 0, 0, 0, 0⟩) :=
  ⟨rfl,
    syncAll_best_effort.1 parseFailSyncEnv "unsynced_0001.jsonl" "SyntaxError" rfl,
    syncAll_best_effort.2.1 parseFailSyncEnv ["unsynced_0001.jsonl"] rfl rfl,
    syncAll_best_effort.2.2 listFailSyncEnv "ListTimeout" rfl⟩

/-- C7 counterexample.  The claim that a deletion failure for one object
does not prevent deletion attempts on the remaining objects is false on
the code: with two staged blobs where deleting the first throws, the
stage fails with that error even though the listing succeeded, and the
second object is never attempted. -/
theorem cleanS3_claim_counterexample :
    cleanS3 cleanCxEnv =
      (⟨false, some "AccessDenied", 0, 0, 0⟩, ["unsynced_0001.jsonl"]) ∧
    ((cleanS3 cleanCxEnv).2.contains "unsynced_0002.jsonl" = false) ∧
    cleanCxEnv.listing =
      Except.ok [⟨"unsynced_0001.jsonl"⟩, ⟨"unsynced_0002.jsonl"⟩] :=
  ⟨by decide, by decide, rfl⟩

theorem deleteLoop_prefix_ok (env : CleanEnv) :
    ∀ (pre : List S3Obj) (f : S3Obj) (rest : List S3Obj) (e : String)
      (attempted : List String) (count : Nat),
      (∀ g ∈ pre, env.deleteObj g.key = Except.ok ()) →
      env.deleteObj f.key = Except.error e →
      deleteLoop env (pre ++ f :: rest) attempted count =
        (some e, attempted ++ pre.map (fun g => g.key) ++ [f.key],
          count + pre.length) := by
  intro pre
  induction pre with
  | nil =>
    intro f rest e attempted count _ hdel
    simp only [List.nil_append, List.map_nil, List.append_nil, List.length_nil,
      Nat.add_zero]
    unfold deleteLoop
    rw [hdel]
  | cons g pre ih =>
    intro f rest e attempted count hpre hdel
    have hg : env.deleteObj g.key = Except.ok () := hpre g (by simp)
    simp only [List.cons_append]
    unfold deleteLoop
    rw [hg]
    rw [ih f rest e (attempted ++ [g.key]) (count + 1)
      (fun x hx => hpre x (by simp [hx])) hdel]
    simp [List.append_assoc]
    omega

/-- C7 (amended).  The janitor deletion loop aborts at the object whose
deletion throws, wherever it sits in the delete set: after any prefix of
successful deletions, the failing object is the last one attempted, the
remaining delete-set objects are not attempted, and the stage fails with
that error; a listing failure also fails the stage. -/
theorem cleanS3_abort_on_delete_failure :
    (∀ (env : CleanEnv) (e : String), env.listing = Except.error e →
      cleanS3 env = (⟨false, some e, 0, 0, 0⟩, [])) ∧
    (∀ (env : CleanEnv) (files pre : List S3Obj) (f : S3Obj) (rest : List S3Obj)
      (e : String),
      env.listing = Except.ok files →
      files.filter toDeletePred = pre ++ f :: rest →
      (∀ g ∈ pre, env.deleteObj g.key = Except.ok ()) →
      env.deleteObj f.key = Except.error e →
      cleanS3 env =
        (⟨false, some e, 0, 0, 0⟩, pre.map (fun g => g.key) ++ [f.key])) := by
  constructor
  · intro env e h
    unfold cleanS3
    rw [h]
  · intro env files pre f rest e hl hfilter hpre hdel
    have hloop := deleteLoop_prefix_ok env pre f rest e [] 0 hpre hdel
    simp only [List.nil_append] at hloop
    simp [cleanS3, hl, hfilter, hloop]

/-- C7 witness for the amended theorem: the three-blob janitor
environment whose second deletion throws after a successful first
deletion. -/
theorem cleanS3_abort_on_delete_failure_witness :
    (cleanMidFailEnv.listing = Except.ok
      [⟨"unsynced_0001.jsonl"⟩, ⟨"unsynced_0002.jsonl"⟩, ⟨"unsynced_0003.jsonl"⟩]) ∧
    ([S3Obj.mk "unsynced_0001.jsonl", S3Obj.mk "unsynced_0002.jsonl",
      S3Obj.mk "unsynced_0003.jsonl"].filter toDeletePred =
      [S3Obj.mk "unsynced_0001.jsonl"] ++
        S3Obj.mk "unsynced_0002.jsonl" :: [S3Obj.mk "unsynced_0003.jsonl"]) ∧
    (∀ g ∈ [S3Obj.mk "unsynced_0001.jsonl"],
      cleanMidFailEnv.deleteObj g.key = Except.ok ()) ∧
    (cleanMidFailEnv.deleteObj "unsynced_0002.jsonl" = Except.error "AccessDenied") ∧
    cleanS3 cleanMidFailEnv =
      (⟨false, some "AccessDenied", 0, 0, 0⟩,
        ["unsynced_0001.jsonl", "unsynced_0002.jsonl"]) :=
  ⟨rfl, by decide,
    fun g hg => by
      obtain rfl := List.mem_singleton.mp hg
      rfl,
    rfl,
    cleanS3_abort_on_delete_failure.2 cleanMidFailEnv
      [⟨"unsynced_0001.jsonl"⟩, ⟨"unsynced_0002.jsonl"⟩, ⟨"unsynced_0003.jsonl"⟩]
      [⟨"unsynced_0001.jsonl"⟩] ⟨"unsynced_0002.jsonl"⟩
      [⟨"unsynced_0003.jsonl"⟩] "AccessDenied"
      rfl (by decide)
      (fun g hg => by
        obtain rfl := List.mem_singleton.mp hg
        rfl)
      rfl⟩

/-! ## Lemmas about the resync loop and the orchestrator -/

theorem resyncLoop_zero_fuel (env : OrchEnv) (rc : Nat) (cur : TestOutcome) :
    resyncLoop env 0 rc cur = ResyncOut.done rc cur := rfl

theorem resyncLoop_succ_fuel (env : OrchEnv) (f rc : Nat) (cur : TestOutcome) :
    resyncLoop env (f + 1) rc cur =
      if cur.success then ResyncOut.done rc cur
      else if (env.sync (rc + 1)).success = false then
        (if MAX_RETRIES ≤ rc + 1 then ResyncOut.fatal
         else resyncLoop env f (rc + 1) cur)
      else resyncLoop env f (rc + 1) (env.test (rc + 1)) := rfl

theorem resyncLoop_one_attempt (env : OrchEnv) (t0 : TestOutcome)
    (h0 : t0.success = false) (hs1 : (env.sync 1).success = true)
    (ht1 : (env.test 1).success = true) :
    resyncLoop env MAX_RETRIES 0 t0 = ResyncOut.done 1 (env.test 1) := by
  rw [show MAX_RETRIES = 2 + 1 from rfl, resyncLoop_succ_fuel]
  simp [h0, hs1]
  rw [show (2 : Nat) = 1 + 1 from rfl, resyncLoop_succ_fuel]
  simp [ht1]

theorem resyncLoop_early_failure_continues (env : OrchEnv) (t0 : TestOutcome)
    (h0 : t0.success = false) (hs1 : (env.sync 1).success = false)
    (hs2 : (env.sync 2).success = true) (ht2 : (env.test 2).success = true) :
    resyncLoop env MAX_RETRIES 0 t0 = ResyncOut.done 2 (env.test 2) := by
  rw [show MAX_RETRIES = 2 + 1 from rfl, resyncLoop_succ_fuel]
  simp [h0, hs1, MAX_RETRIES]
  rw [show (2 : Nat) = 1 + 1 from rfl, resyncLoop_succ_fuel]
  simp [h0, hs2, MAX_RETRIES]
  rw [show (1 : Nat) = 0 + 1 from rfl, resyncLoop_succ_fuel]
  simp [ht2]

theorem resyncLoop_fatal_on_final (env : OrchEnv) (t0 : TestOutcome)
    (h0 : t0.success = false) (hs1 : (env.sync 1).success = false)
    (hs2 : (env.sync 2).success = false) (hs3 : (env.sync 3).success = false) :
    resyncLoop env MAX_RETRIES 0 t0 = ResyncOut.fatal := by
  rw [show MAX_RETRIES = 2 + 1 from rfl, resyncLoop_succ_fuel]
  simp [h0, hs1, MAX_RETRIES]
  rw [show (2 : Nat) = 1 + 1 from rfl, resyncLoop_succ_fuel]
  simp [h0, hs2, MAX_RETRIES]
  rw [show (1 : Nat) = 0 + 1 from rfl, resyncLoop_succ_fuel]
  simp [h0, hs3, MAX_RETRIES]

theorem resyncLoop_exhaust (env : OrchEnv) (t0 : TestOutcome)
    (h0 : t0.success = false)
    (hs1 : (env.sync 1).success = true) (hs2 : (env.sync 2).success = true)
    (hs3 : (env.sync 3).success = true)
    (ht1 : (env.test 1).success = false) (ht2 : (env.test 2).success = false)
    (ht3 : (env.test 3).success = false) :
    resyncLoop env MAX_RETRIES 0 t0 = ResyncOut.done 3 (env.test 3) := by
  rw [show MAX_RETRIES = 2 + 1 from rfl, resyncLoop_succ_fuel]
  simp [h0, hs1]
  rw [show (2 : Nat) = 1 + 1 from rfl, resyncLoop_succ_fuel]
  simp [ht1, hs2]
  rw [show (1 : Nat) = 0 + 1 from rfl, resyncLoop_succ_fuel]
  simp [ht2, hs3]
  exact resyncLoop_zero_fuel env 3 (env.test 3)

theorem resyncLoop_agree (env env' : OrchEnv) :
    ∀ fuel rc cur,
      (∀ k, k ≤ rc + fuel → env.sync k = env'.sync k ∧ env.test k = env'.test k) →
      resyncLoop env fuel rc cur = resyncLoop env' fuel rc cur := by
  intro fuel
  induction fuel with
  | zero => intro rc cur _; rfl
  | succ n ih =>
    intro rc cur h
    rw [resyncLoop_succ_fuel, resyncLoop_succ_fuel]
    by_cases hc : cur.success
    · rw [if_pos hc, if_pos hc]
    · rw [if_neg hc, if_neg hc]
      have hs := (h (rc + 1) (by omega)).1
      have ht := (h (rc + 1) (by omega)).2
      rw [← hs, ← ht]
      by_cases hsf : (env.sync (rc + 1)).success = false
      · rw [if_pos hsf, if_pos hsf]
        by_cases hmr : MAX_RETRIES ≤ rc + 1
        · rw [if_pos hmr, if_pos hmr]
        · rw [if_neg hmr, if_neg hmr]
          exact ih (rc + 1) cur (fun k hk => h k (by omega))
      · rw [if_neg hsf, if_neg hsf]
        exact ih (rc + 1) (env.test (rc + 1)) (fun k hk => h k (by omega))

/-- C4.  markAsSynced returns the distinguished error when no checkpoint
logs exist, and an orchestration run whose mark step fails with exactly
that error while the download reported zero records is remapped to a
successful terminal result with a zero-work summary (zero records
marked) instead of a mark-step failure. -/
theorem orchestrate_no_data_success :
    (∀ mEnv : MarkEnv, mEnv.listing = Except.ok [] →
      markAsSynced mEnv = ⟨false, some "No sync log files found", 0⟩) ∧
    (∀ (env : OrchEnv) (d : DownloadResult) (u k : Nat) (t : TestOutcome),
      env.download = Except.ok d → d.success = true → d.totalRecords = 0 →
      (env.sync 0).success = true →
      resyncLoop env MAX_RETRIES 0 (env.test 0) = ResyncOut.done k t →
      env.mark = Except.ok ⟨false, some "No sync log files found", u⟩ →
      env.logSave = Except.ok () →
      orchestrate env =
        (OrchResult.succeeded
          { download := d, sync := env.sync 0, test := env.test 0,
            mark := some ⟨true, none, 0⟩, clean := some ⟨true, none, 0⟩,
            success := true },
         [{ download := d, sync := env.sync 0, test := env.test 0,
            mark := some ⟨true, none, 0⟩, clean := some ⟨true, none, 0⟩,
            success := true }])) := by
  constructor
  · intro mEnv h
    unfold markAsSynced
    rw [h]
    rfl
  · intro env d u k t hdl hds hd0 hs0 hres hmark hlog
    simp [orchestrate, hdl, hds, hd0, hs0, hres, hmark, hlog]

/-- C4 witness: the empty checkpoint listing and a concrete zero-download
run. -/
theorem orchestrate_no_data_success_witness :
    (emptyMarkEnv.listing = Except.ok []) ∧
    (markAsSynced emptyMarkEnv = ⟨false, some "No sync log files found", 0⟩) ∧
    (noDataEnv.download = Except.ok ⟨true, 0⟩) ∧
    (resyncLoop noDataEnv MAX_RETRIES 0 (noDataEnv.test 0) =
      ResyncOut.done 0 passTest) ∧
    (orchestrate noDataEnv =
      (OrchResult.succeeded
        { download := ⟨true, 0⟩, sync := noDataEnv.sync 0, test := noDataEnv.test 0,
          mark := some ⟨true, none, 0⟩, clean := some ⟨true, none, 0⟩,
          success := true },
       [{ download := ⟨true, 0⟩, sync := noDataEnv.sync 0, test := noDataEnv.test 0,
          mark := some ⟨true, none, 0⟩, clean := some ⟨true, none, 0⟩,
          success := true }])) :=
  ⟨rfl, orchestrate_no_data_success.1 emptyMarkEnv rfl, rfl, by decide,
    orchestrate_no_data_success.2 noDataEnv ⟨true, 0⟩ 0 0 passTest
      rfl rfl rfl rfl (by decide) rfl rfl⟩

/-- C5.  The resync policy: a first-test failure followed by a successful
resync and passing re-test uses exactly one attempt; a resync failure on
a non-final attempt is tolerated and the loop continues; resync failures
through the final allowed attempt are fatal with step resync; the loop
never consults a sync or test call beyond attempt MAX_RETRIES = 3; and
when every test fails but resyncs succeed, the pipeline proceeds to the
mark step (a mark failure is then reported as step mark, not resync). -/
theorem resync_retry_policy :
    (∀ (env : OrchEnv) (t0 : TestOutcome),
      t0.success = false → (env.sync 1).success = true →
      (env.test 1).success = true →
      resyncLoop env MAX_RETRIES 0 t0 = ResyncOut.done 1 (env.test 1)) ∧
    (∀ (env : OrchEnv) (t0 : TestOutcome),
      t0.success = false → (env.sync 1).success = false →
      (env.sync 2).success = true → (env.test 2).success = true →
      resyncLoop env MAX_RETRIES 0 t0 = ResyncOut.done 2 (env.test 2)) ∧
    (∀ (env : OrchEnv) (t0 : TestOutcome),
      t0.success = false → (env.sync 1).success = false →
      (env.sync 2).success = false → (env.sync 3).success = false →
      resyncLoop env MAX_RETRIES 0 t0 = ResyncOut.fatal) ∧
    (∀ (env env' : OrchEnv) (t0 : TestOutcome),
      (∀ k, k ≤ MAX_RETRIES → env.sync k = env'.sync k ∧ env.test k = env'.test k) →
      resyncLoop env MAX_RETRIES 0 t0 = resyncLoop env' MAX_RETRIES 0 t0) ∧
    (∀ (env : OrchEnv) (d : DownloadResult) (e : String),
      env.download = Except.ok d → d.success = true →
      (env.sync 0).success = true → (env.test 0).success = false →
      (env.sync 1).success = true → (env.sync 2).success = true →
      (env.sync 3).success = true →
      (env.test 1).success = false → (env.test 2).success = false →
      (env.test 3).success = false →
      env.mark = Except.ok ⟨false, some e, 0⟩ →
      e ≠ "No sync log files found" →
      orchestrate env = (OrchResult.failed (some "mark") (some e), [])) := by
  refine ⟨resyncLoop_one_attempt, resyncLoop_early_failure_continues,
    resyncLoop_fatal_on_final, ?_, ?_⟩
  · intro env env' t0 h
    exact resyncLoop_agree env env' MAX_RETRIES 0 t0 (fun k hk => h k (by omega))
  · intro env d e hdl hds hs0 ht0 hs1 hs2 hs3 ht1 ht2 ht3 hmark he
    have hres := resyncLoop_exhaust env (env.test 0) ht0 hs1 hs2 hs3 ht1 ht2 ht3
    simp [orchestrate, hdl, hds, hs0, hres, hmark, he]

/-- C5 witness: the four loop scenarios and the proceed-to-mark run at
concrete orchestration environments. -/
theorem resync_retry_policy_witness :
    (failTest.success = false) ∧
    ((resyncEnvA.sync 1).success = true) ∧
    ((resyncEnvA.test 1).success = true) ∧
    (resyncLoop resyncEnvA MAX_RETRIES 0 failTest = ResyncOut.done 1 (resyncEnvA.test 1)) ∧
    (resyncLoop resyncEnvB MAX_RETRIES 0 failTest = ResyncOut.done 2 (resyncEnvB.test 2)) ∧
    (resyncLoop resyncEnvC MAX_RETRIES 0 failTest = ResyncOut.fatal) ∧
    (resyncLoop resyncEnvA MAX_RETRIES 0 failTest = resyncLoop resyncEnvA MAX_RETRIES 0 failTest) ∧
    (orchestrate resyncEnvD =
      (OrchResult.failed (some "mark") (some "update exploded"), [])) :=
  ⟨by decide, by decide, by decide,
    resync_retry_policy.1 resyncEnvA failTest (by decide) (by decide) (by decide),
    resync_retry_policy.2.1 resyncEnvB failTest (by decide) (by decide) (by decide) (by decide),
    resync_retry_policy.2.2.1 resyncEnvC failTest (by decide) (by decide) (by decide) (by decide),
    resync_retry_policy.2.2.2.1 resyncEnvA resyncEnvA failTest (fun k _ => ⟨rfl, rfl⟩),
    resync_retry_policy.2.2.2.2 resyncEnvD ⟨true, 5⟩ "update exploded"
      rfl rfl (by decide) (by decide) (by decide) (by decide) (by decide)
      (by decide) (by decide) (by decide) rfl (by decide)⟩

/-- C8 (code bug).  In a run where every stage succeeds, the outer
markResult variable of 06_orchestrate.js is never assigned (the const
inside the try block shadows it), so exactly one summary artifact is
written but it records no mark result (mark is undefined), and the final
console template then reads totalUpdated of undefined, whose TypeError
the outer catch converts into an overall failure: the function returns
success=false instead of the success the spec states. -/
theorem orchestrate_success_shadowing_bug :
    ∀ (env : OrchEnv) (d : DownloadResult) (m : MarkResult) (k : Nat) (t : TestOutcome),
      env.download = Except.ok d → d.success = true →
      (env.sync 0).success = true →
      resyncLoop env MAX_RETRIES 0 (env.test 0) = ResyncOut.done k t →
      env.mark = Except.ok m → m.success = true →
      env.clean.success = true → env.logSave = Except.ok () →
      orchestrate env =
        (OrchResult.failed none (some "Cannot read properties of undefined"),
         [{ download := d, sync := env.sync 0, test := env.test 0,
            mark := none, clean := some env.clean, success := true }]) := by
  intro env d m k t hdl hds hs0 hres hmark hm hc hlog
  simp [orchestrate, hdl, hds, hs0, hres, hmark, hm, hc, hlog]

/-- C8 witness: a concrete run in which download, sync, test, mark and
clean all succeed. -/
theorem orchestrate_success_shadowing_bug_witness :
    (allOkEnv.download = Except.ok ⟨true, 5⟩) ∧
    (allOkEnv.mark = Except.ok ⟨true, none, 5⟩) ∧
    (resyncLoop allOkEnv MAX_RETRIES 0 (allOkEnv.test 0) = ResyncOut.done 0 passTest) ∧
    (allOkEnv.clean.success = true) ∧
    (orchestrate allOkEnv =
      (OrchResult.failed none (some "Cannot read properties of undefined"),
       [{ download := ⟨true, 5⟩, sync := allOkEnv.sync 0, test := allOkEnv.test 0,
          mark := none, clean := some allOkEnv.clean, success := true }])) :=
  ⟨rfl, rfl, by decide, rfl,
    orchestrate_success_shadowing_bug allOkEnv ⟨true, 5⟩ ⟨true, none, 5⟩ 0 passTest
      rfl rfl rfl (by decide) rfl rfl rfl rfl⟩
